import Mathlib

/-!
Verification of the health-aggregation core of the hubitat_terraform
repository.  The definitions below are shallow embeddings of the Python
source under `src/`:

* the status reducer and summary statistics of
  `src/dashboard/main.py` (`HealthDashboard.get_system_health`) and of
  `src/dashboard/main_simple.py`;
* the per-service probe `HealthDashboard.check_service_health`;
* the TTL cache (`HealthDashboard.get_cached_health` and the `/system`
  endpoint);
* the background monitor loop (`health_monitor`);
* the auto-ingest subscriber of `src/database/main.py`
  (`redis_subscriber`, `SensorReading` validation, `store_reading`).

Machine floats of the source carry exact values here (`ℚ`), datetimes
are rational instants, and fallible Python code is modelled with
`Except`.
-/

/-- The `status_priority` dict of `src/dashboard/main.py` line 110. -/
def status_priority : List (String × Nat) :=
  [("healthy", 4), ("degraded", 3), ("unhealthy", 2),
   ("offline", 1), ("timeout", 1), ("error", 1)]

/-- Python `dict.get(key, default)` on a string-keyed table. -/
def dictGet (tbl : List (String × Nat)) (k : String) (d : Nat) : Nat :=
  (tbl.lookup k).getD d

/-- One iteration of the reduction loop of `get_system_health`
(`src/dashboard/main.py` lines 113-117): the candidate replaces the
overall status when its priority (default 0) is strictly below the
overall's priority (default 5). -/
def reduceStepFull (overall s : String) : String :=
  if dictGet status_priority s 0 < dictGet status_priority overall 5 then s else overall

/-- The status reduction of `src/dashboard/main.py` lines 110-117:
fold `reduceStepFull` over the statuses, seeded with `"healthy"`. -/
def reduceOverall (statuses : List String) : String :=
  statuses.foldl reduceStepFull "healthy"

/-- The `status_priority` dict of `src/dashboard/main_simple.py` line 104. -/
def status_priority_simple : List (String × Nat) :=
  [("healthy", 4), ("responding", 3), ("degraded", 2),
   ("unhealthy", 1), ("offline", 0), ("timeout", 0), ("error", 0)]

/-- One iteration of the reduction loop of
`src/dashboard/main_simple.py` lines 107-111. -/
def reduceStepSimple (overall s : String) : String :=
  if dictGet status_priority_simple s 0 < dictGet status_priority_simple overall 5 then s
  else overall

/-- The status reduction of `src/dashboard/main_simple.py` lines 104-111. -/
def reduceOverallSimple (statuses : List String) : String :=
  statuses.foldl reduceStepSimple "healthy"

/-- The reducer exactly as the specification words it: the overall
status starts at `"healthy"` carrying an unreachable ceiling priority 5,
and is replaced (together with its table priority, default 0) precisely
when a candidate's priority is strictly lower than the priority carried
by the current overall.  This keeps the first-seen lowest-priority
status. -/
def reduceSpecStep (acc : String × Nat) (s : String) : String × Nat :=
  if dictGet status_priority s 0 < acc.2 then (s, dictGet status_priority s 0) else acc

/-- Running the specification's reducer over a status list. -/
def reduceSpec (statuses : List String) : String :=
  (statuses.foldl reduceSpecStep ("healthy", 5)).1

/-- The six statuses that appear in the full dashboard's priority table. -/
def knownStatuses : List String :=
  ["healthy", "degraded", "unhealthy", "offline", "timeout", "error"]

/-- The statuses the spec calls out as "offline"/"timeout"/"error". -/
def isBadStatus (s : String) : Bool :=
  s == "offline" || s == "timeout" || s == "error"

/-- The priority a status contributes as a candidate (lookup with default 0). -/
def prioFull (s : String) : Nat := dictGet status_priority s 0

lemma known_elim {s : String} (hs : s ∈ knownStatuses) :
    s = "healthy" ∨ s = "degraded" ∨ s = "unhealthy" ∨ s = "offline" ∨
      s = "timeout" ∨ s = "error" := by
  simpa [knownStatuses] using hs

/-- For a status present in the table, the overall-side lookup (default 5)
agrees with the candidate-side lookup (default 0). -/
lemma dictGet_known {s : String} (hs : s ∈ knownStatuses) :
    dictGet status_priority s 5 = prioFull s := by
  rcases known_elim hs with rfl | rfl | rfl | rfl | rfl | rfl <;> rfl

lemma one_le_prioFull_known {s : String} (hs : s ∈ knownStatuses) :
    1 ≤ prioFull s := by
  rcases known_elim hs with rfl | rfl | rfl | rfl | rfl | rfl <;> decide

lemma reduceStepFull_known {o s : String} (ho : o ∈ knownStatuses) :
    reduceStepFull o s = if prioFull s < prioFull o then s else o := by
  rw [reduceStepFull, dictGet_known ho]; rfl

lemma reduceStepFull_mem {o s : String} (ho : o ∈ knownStatuses) (hs : s ∈ knownStatuses) :
    reduceStepFull o s ∈ knownStatuses := by
  rw [reduceStepFull_known ho]
  by_cases h : prioFull s < prioFull o <;> simp [h, hs, ho]

/-- Generalized equivalence of the code reducer and the spec reducer on
recognized statuses, from a synchronized accumulator. -/
lemma foldFull_eq_foldSpec :
    ∀ (l : List String), (∀ s ∈ l, s ∈ knownStatuses) →
    ∀ o ∈ knownStatuses,
      l.foldl reduceStepFull o = (l.foldl reduceSpecStep (o, prioFull o)).1 := by
  intro l
  induction l with
  | nil => intro _ o _; rfl
  | cons s rest ih =>
    intro hl o ho
    have hs : s ∈ knownStatuses := hl s (List.mem_cons_self s rest)
    have hrest : ∀ x ∈ rest, x ∈ knownStatuses := fun x hx => hl x (List.mem_cons_of_mem s hx)
    simp only [List.foldl_cons]
    rw [reduceStepFull_known ho]
    by_cases h : prioFull s < prioFull o
    · rw [if_pos h]
      have hstep : reduceSpecStep (o, prioFull o) s = (s, prioFull s) := by
        unfold reduceSpecStep
        rw [if_pos (show dictGet status_priority s 0 < (o, prioFull o).2 from h)]
        rfl
      rw [hstep]
      exact ih hrest s hs
    · rw [if_neg h]
      have hstep : reduceSpecStep (o, prioFull o) s = (o, prioFull o) := by
        unfold reduceSpecStep
        rw [if_neg (show ¬dictGet status_priority s 0 < (o, prioFull o).2 from h)]
      rw [hstep]
      exact ih hrest o ho

/-- Bridging the seeds: the spec reducer's ceiling-5 seed behaves like the
code's seed (whose overall-side lookup yields 4) on recognized statuses. -/
lemma foldSpec_seed_bridge :
    ∀ (l : List String), (∀ s ∈ l, s ∈ knownStatuses) →
      (l.foldl reduceSpecStep ("healthy", 5)).1 =
        (l.foldl reduceSpecStep ("healthy", 4)).1 := by
  intro l hl
  cases l with
  | nil => rfl
  | cons s rest =>
    have hs : s ∈ knownStatuses := hl s (List.mem_cons_self s rest)
    simp only [List.foldl_cons]
    have h5 : reduceSpecStep ("healthy", 5) s = (s, prioFull s) := by
      have hlt : prioFull s < 5 := by
        rcases known_elim hs with rfl | rfl | rfl | rfl | rfl | rfl <;> decide
      unfold reduceSpecStep
      rw [if_pos (show dictGet status_priority s 0 < (("healthy", 5) : String × Nat).2 from hlt)]
      rfl
    rw [h5]
    rcases known_elim hs with rfl | rfl | rfl | rfl | rfl | rfl <;> rfl

lemma reduceOverall_eq_reduceSpec {l : List String}
    (hl : ∀ s ∈ l, s ∈ knownStatuses) : reduceOverall l = reduceSpec l := by
  have h1 : reduceOverall l = (l.foldl reduceSpecStep ("healthy", prioFull "healthy")).1 :=
    foldFull_eq_foldSpec l hl "healthy" (by simp [knownStatuses])
  have h2 := foldSpec_seed_bridge l hl
  rw [reduceOverall] at h1 ⊢
  rw [h1]
  have : prioFull "healthy" = 4 := rfl
  rw [this, reduceSpec, h2]

/-- If every status is `"healthy"`, the fold stays at `"healthy"`. -/
lemma foldFull_all_healthy :
    ∀ (l : List String), (∀ s ∈ l, s = "healthy") →
      l.foldl reduceStepFull "healthy" = "healthy" := by
  intro l
  induction l with
  | nil => intro _; rfl
  | cons s rest ih =>
    intro hl
    have hs : s = "healthy" := hl s (List.mem_cons_self s rest)
    subst hs
    simp only [List.foldl_cons]
    have : reduceStepFull "healthy" "healthy" = "healthy" := by
      simp [reduceStepFull, dictGet, status_priority]
    rw [this]
    exact ih fun x hx => hl x (List.mem_cons_of_mem _ hx)

/-- A bad status (offline/timeout/error) is absorbing among recognized
statuses: nothing recognized has strictly lower priority. -/
lemma foldFull_bad_absorbing :
    ∀ (l : List String), (∀ s ∈ l, s ∈ knownStatuses) →
    ∀ o, isBadStatus o = true → l.foldl reduceStepFull o = o := by
  intro l
  induction l with
  | nil => intro _ o _; rfl
  | cons s rest ih =>
    intro hl o ho
    have hs : s ∈ knownStatuses := hl s (List.mem_cons_self s rest)
    have hrest : ∀ x ∈ rest, x ∈ knownStatuses := fun x hx => hl x (List.mem_cons_of_mem s hx)
    have hoP : dictGet status_priority o 5 = 1 := by
      rcases Bool.or_eq_true_iff.mp ho with h | h
      · rcases Bool.or_eq_true_iff.mp h with h1 | h1 <;>
          · cases eq_of_beq h1; rfl
      · cases eq_of_beq h; rfl
    have hstep : reduceStepFull o s = o := by
      rw [reduceStepFull, hoP, if_neg]
      exact Nat.not_lt.mpr (one_le_prioFull_known hs)
    simp only [List.foldl_cons, hstep]
    exact ih hrest o ho

/-- On recognized statuses, the fold from a recognized non-bad overall
lands on the first bad status found, when one exists. -/
lemma foldFull_first_bad :
    ∀ (l : List String), (∀ s ∈ l, s ∈ knownStatuses) →
    ∀ o, o ∈ knownStatuses → isBadStatus o = false →
    ∀ b, l.find? isBadStatus = some b → l.foldl reduceStepFull o = b := by
  intro l
  induction l with
  | nil =>
    intro _ o _ _ b hb
    simp [List.find?] at hb
  | cons s rest ih =>
    intro hl o ho hob b hb
    have hs : s ∈ knownStatuses := hl s (List.mem_cons_self s rest)
    have hrest : ∀ x ∈ rest, x ∈ knownStatuses := fun x hx => hl x (List.mem_cons_of_mem s hx)
    by_cases hbad : isBadStatus s = true
    · have hbs : b = s := by
        rw [List.find?_cons_of_pos _ hbad] at hb
        exact (Option.some_inj.mp hb).symm
      subst hbs
      have hsP : prioFull b = 1 := by
        rcases Bool.or_eq_true_iff.mp hbad with h | h
        · rcases Bool.or_eq_true_iff.mp h with h1 | h1 <;>
            · cases eq_of_beq h1; rfl
        · cases eq_of_beq h; rfl
      have hoP : 1 < prioFull o := by
        rcases known_elim ho with rfl | rfl | rfl | rfl | rfl | rfl <;>
          first | decide | simp [isBadStatus] at hob
      have hstep : reduceStepFull o b = b := by
        rw [reduceStepFull_known ho, if_pos (show prioFull b < prioFull o by rw [hsP]; exact hoP)]
      simp only [List.foldl_cons, hstep]
      exact foldFull_bad_absorbing rest hrest b hbad
    · have hbadf : isBadStatus s = false := by
        cases h : isBadStatus s
        · rfl
        · exact absurd h hbad
      rw [List.find?_cons_of_neg _ (by simp [hbadf])] at hb
      simp only [List.foldl_cons]
      have hmem := reduceStepFull_mem ho hs
      have hnb : isBadStatus (reduceStepFull o s) = false := by
        rw [reduceStepFull]
        by_cases h : dictGet status_priority s 0 < dictGet status_priority o 5
        · rw [if_pos h]; exact hbadf
        · rw [if_neg h]; exact hob
      exact ih hrest _ hmem hnb b hb

/-- **C9.** The reduction of an empty list of probe outcomes returns
`"healthy"`: with zero registered services the overall status is
`"healthy"` by construction of the asymmetric seeding
(`src/dashboard/main.py` lines 110-117). -/
theorem reduce_empty_healthy : reduceOverall [] = "healthy" := rfl

/-- **C1 (counterexample).** The claim says the reduction returns the
lowest-priority status present (first-seen among equal priorities), and
that when an offline/timeout/error status is present the first such one
is returned.  On `["offline", "unknown", "healthy"]` the code returns
`"healthy"`: the unrecognized status `"unknown"` (priority 0, below
`"offline"`) first displaces `"offline"`, but as the running overall it
is looked up with default 5, so the final `"healthy"` displaces it again.
The spec-worded reducer returns `"unknown"` on the same input. -/
theorem reduce_overall_counterexample :
    reduceOverall ["offline", "unknown", "healthy"] = "healthy" ∧
    reduceSpec ["offline", "unknown", "healthy"] = "unknown" ∧
    "offline" ∈ ["offline", "unknown", "healthy"] ∧
    isBadStatus "offline" = true ∧
    prioFull "unknown" < prioFull "healthy" := by
  refine ⟨rfl, rfl, ?_, rfl, ?_⟩
  · simp
  · decide

/-- **C1 (amended).** Restricted to status lists drawn from the six
recognized statuses of the priority table, the code's reduction agrees
with the spec-worded reducer (lowest-priority status present, ceiling-5
seed, first-seen-wins among equal priorities); in particular an
all-`"healthy"` list reduces to `"healthy"`, and when any
offline/timeout/error status is present the reduction returns the first
such one encountered. -/
theorem reduce_overall_amended (l : List String) (hl : ∀ s ∈ l, s ∈ knownStatuses) :
    reduceOverall l = reduceSpec l ∧
    ((∀ s ∈ l, s = "healthy") → reduceOverall l = "healthy") ∧
    (∀ b, l.find? isBadStatus = some b → reduceOverall l = b) := by
  refine ⟨reduceOverall_eq_reduceSpec hl, ?_, ?_⟩
  · intro h
    exact foldFull_all_healthy l h
  · intro b hb
    exact foldFull_first_bad l hl "healthy" (by simp [knownStatuses]) rfl b hb

/-- Witness for `reduce_overall_amended` at a concrete recognized list. -/
theorem reduce_overall_amended_witness :
    reduceOverall ["degraded", "offline", "timeout"] =
      reduceSpec ["degraded", "offline", "timeout"] ∧
    reduceOverall ["degraded", "offline", "timeout"] = "offline" := by
  have h := reduce_overall_amended ["degraded", "offline", "timeout"]
    (by intro s hs; simp [knownStatuses]; revert hs; simp; rintro (rfl | rfl | rfl) <;> simp)
  exact ⟨h.1, h.2.2 "offline" rfl⟩

lemma step_full_eq_step_simple {o s : String} (ho : o ∈ knownStatuses)
    (hs : s ∈ knownStatuses) : reduceStepFull o s = reduceStepSimple o s := by
  rcases known_elim ho with rfl | rfl | rfl | rfl | rfl | rfl <;>
    rcases known_elim hs with rfl | rfl | rfl | rfl | rfl | rfl <;> rfl

lemma foldFull_eq_foldSimple :
    ∀ (l : List String), (∀ s ∈ l, s ∈ knownStatuses) →
    ∀ o ∈ knownStatuses, l.foldl reduceStepFull o = l.foldl reduceStepSimple o := by
  intro l
  induction l with
  | nil => intro _ o _; rfl
  | cons s rest ih =>
    intro hl o ho
    have hs : s ∈ knownStatuses := hl s (List.mem_cons_self s rest)
    have hrest : ∀ x ∈ rest, x ∈ knownStatuses := fun x hx => hl x (List.mem_cons_of_mem s hx)
    simp only [List.foldl_cons]
    rw [← step_full_eq_step_simple ho hs]
    exact ih hrest _ (reduceStepFull_mem ho hs)

/-- **C10 (counterexample).** The full dashboard's reduction and the
simple dashboard's reduction disagree: on `["offline", "responding"]`
the full table (where `"responding"` is unrecognized, priority 0, and an
unrecognized overall is looked up with default 5) yields `"responding"`,
while the simple table (where `"responding"` has priority 3 and
`"offline"` priority 0) yields `"offline"`. -/
theorem reduce_variants_counterexample :
    reduceOverall ["offline", "responding"] = "responding" ∧
    reduceOverallSimple ["offline", "responding"] = "offline" ∧
    reduceOverall ["offline", "responding"] ≠
      reduceOverallSimple ["offline", "responding"] := by
  refine ⟨rfl, rfl, ?_⟩
  decide

/-- **C10 (amended).** On status lists drawn from the six statuses that
both priority tables recognize (healthy, degraded, unhealthy, offline,
timeout, error), the full dashboard's reduction and the simple
dashboard's reduction return the same overall status: the two tables
induce the same weak ordering there. -/
theorem reduce_variants_amended (l : List String) (hl : ∀ s ∈ l, s ∈ knownStatuses) :
    reduceOverall l = reduceOverallSimple l :=
  foldFull_eq_foldSimple l hl "healthy" (by simp [knownStatuses])

/-- Witness for `reduce_variants_amended` at a concrete recognized list. -/
theorem reduce_variants_amended_witness :
    reduceOverall ["unhealthy", "degraded", "timeout"] =
      reduceOverallSimple ["unhealthy", "degraded", "timeout"] :=
  reduce_variants_amended ["unhealthy", "degraded", "timeout"] (by decide)

/-- A timestamp text field of a JSON body: either a string that
`datetime.fromisoformat` accepts (denoting the instant `t`) or one it
rejects. -/
inductive TsText where
  | valid (t : ℚ)
  | invalid (raw : String)
deriving DecidableEq

/-- `datetime.fromisoformat`: yields the denoted instant, or raises
(modelled as `Except.error`). -/
def fromisoformat : TsText → Except String ℚ
  | TsText.valid t => Except.ok t
  | TsText.invalid raw => Except.error ("Invalid isoformat string: " ++ raw)

/-- The JSON body of a health endpoint reply, with each of the three
fields possibly absent. -/
structure HealthBody where
  status : Option String
  timestamp : Option TsText
  details : Option (List (String × String))
deriving DecidableEq

/-- Outcome of `await response.json()`: a parsed body, or a raise. -/
inductive BodyResult where
  | ok (body : HealthBody)
  | unparseable (err : String)
deriving DecidableEq

/-- The possible outcomes of the awaited request in
`check_service_health`: a reply with a status code and body, an
`asyncio.TimeoutError`, or any other exception. -/
inductive HttpResult where
  | success (statusCode : Nat) (body : BodyResult)
  | timedOut
  | failed (err : String)
deriving DecidableEq

/-- The `ServiceHealth` pydantic model of `src/dashboard/main.py`
lines 25-30. -/
structure ServiceHealth where
  service : String
  status : String
  timestamp : ℚ
  details : List (String × String)
  response_time_ms : Option ℚ
deriving DecidableEq

/-- The raising part of the 200-branch of `check_service_health`
(`src/dashboard/main.py` lines 62-69): reading the body's fields with
defaults and parsing its timestamp, which can raise. -/
def parse200 (service_name : String) (body : HealthBody) (response_time : ℚ)
    (now : ℚ) : Except String ServiceHealth := do
  let t ← fromisoformat (body.timestamp.getD (TsText.valid now))
  Except.ok
    { service := service_name
      status := body.status.getD "unknown"
      timestamp := t
      details := body.details.getD []
      response_time_ms := some response_time }

/-- `HealthDashboard.check_service_health` of `src/dashboard/main.py`
lines 49-94, with the awaited request's outcome, the measured round-trip
time (ms) and the current instant as inputs.  Every raise inside the
`try` block lands in the final generic handler (status `"offline"`). -/
def check_service_health (service_name name : String) (result : HttpResult)
    (response_time : ℚ) (now : ℚ) : ServiceHealth :=
  match result with
  | HttpResult.success code bodyR =>
      if code == 200 then
        match bodyR with
        | BodyResult.ok body =>
            match parse200 service_name body response_time now with
            | Except.ok h => h
            | Except.error e =>
                { service := service_name, status := "offline", timestamp := now
                  details := [("error", e), ("name", name)], response_time_ms := none }
        | BodyResult.unparseable e =>
            { service := service_name, status := "offline", timestamp := now
              details := [("error", e), ("name", name)], response_time_ms := none }
      else
        { service := service_name, status := "error", timestamp := now
          details := [("error", "HTTP " ++ toString code), ("name", name)]
          response_time_ms := some response_time }
  | HttpResult.timedOut =>
      { service := service_name, status := "timeout", timestamp := now
        details := [("error", "Request timeout"), ("name", name)]
        response_time_ms := some 10000 }
  | HttpResult.failed e =>
      { service := service_name, status := "offline", timestamp := now
        details := [("error", e), ("name", name)], response_time_ms := none }

/-- **C2 (counterexample).** The probe branches on `status == 200`, not
on 2xx: a 204 reply with a perfectly parseable healthy body is
classified `"error"`, not the body's own status.  Moreover a 200 reply
whose body carries an unparseable timestamp is classified `"offline"`
through the generic exception handler. -/
theorem probe_classification_counterexample :
    (check_service_health "hubitat" "Hubitat Hub Control"
        (HttpResult.success 204
          (BodyResult.ok ⟨some "healthy", some (TsText.valid 0), some []⟩)) 5 0).status =
      "error" ∧
    (check_service_health "hubitat" "Hubitat Hub Control"
        (HttpResult.success 204
          (BodyResult.ok ⟨some "healthy", some (TsText.valid 0), some []⟩)) 5 0).status ≠
      "healthy" ∧
    (check_service_health "weather" "Weather Data Service"
        (HttpResult.success 200
          (BodyResult.ok ⟨some "healthy", some (TsText.invalid "not-a-date"), some []⟩))
        5 0).status = "offline" := by
  refine ⟨rfl, ?_, rfl⟩
  decide

/-- **C2 (amended).** The probe never raises past its boundary — it is a
total function into `ServiceHealth` — and classifies as follows: a 200
reply with parseable body whose timestamp field, when present, is
ISO-parseable yields the body's own reported status with measured
round-trip latency; a reply with any other status code (other 2xx codes
included) yields `"error"` with measured latency and the HTTP code in
the detail map; a timeout yields `"timeout"` with latency pinned to the
10000 ms ceiling and detail `error = Request timeout`; any other failure
yields `"offline"` with absent latency and the raw error description in
the detail map. -/
theorem probe_classification_amended (service_name name : String) (result : HttpResult)
    (rt : ℚ) (now : ℚ) :
    (∀ body, result = HttpResult.success 200 (BodyResult.ok body) →
      (∀ raw, body.timestamp ≠ some (TsText.invalid raw)) →
      check_service_health service_name name result rt now =
        { service := service_name
          status := body.status.getD "unknown"
          timestamp :=
            match body.timestamp with
            | some (TsText.valid t) => t
            | _ => now
          details := body.details.getD []
          response_time_ms := some rt }) ∧
    (∀ code bodyR, result = HttpResult.success code bodyR → code ≠ 200 →
      check_service_health service_name name result rt now =
        { service := service_name, status := "error", timestamp := now
          details := [("error", "HTTP " ++ toString code), ("name", name)]
          response_time_ms := some rt }) ∧
    (result = HttpResult.timedOut →
      check_service_health service_name name result rt now =
        { service := service_name, status := "timeout", timestamp := now
          details := [("error", "Request timeout"), ("name", name)]
          response_time_ms := some 10000 }) ∧
    (∀ e, result = HttpResult.failed e →
      check_service_health service_name name result rt now =
        { service := service_name, status := "offline", timestamp := now
          details := [("error", e), ("name", name)], response_time_ms := none }) := by
  refine ⟨?_, ?_, ?_, ?_⟩
  · rintro ⟨bst, bts, bdet⟩ rfl hts
    match bts with
    | none => rfl
    | some (TsText.valid t) => rfl
    | some (TsText.invalid raw) => exact absurd rfl (hts raw)
  · rintro code bodyR rfl hne
    have hcode : (code == 200) = false := by
      simpa using hne
    simp [check_service_health, hcode]
  · rintro rfl
    rfl
  · rintro e rfl
    rfl

/-- Witness for `probe_classification_amended`: a 200 reply whose body
reports `"degraded"` with no timestamp and no details. -/
theorem probe_classification_amended_witness :
    check_service_health "govee" "Govee Sensor Service"
        (HttpResult.success 200 (BodyResult.ok ⟨some "degraded", none, none⟩)) 7 3 =
      { service := "govee", status := "degraded", timestamp := 3, details := []
        response_time_ms := some 7 } := by
  have h := (probe_classification_amended "govee" "Govee Sensor Service"
      (HttpResult.success 200 (BodyResult.ok ⟨some "degraded", none, none⟩)) 7 3).1
      ⟨some "degraded", none, none⟩ rfl (by intro raw h; cases h)
  exact h

/-- **C8 (counterexample).** A 200 reply whose timestamp field is
present but unparseable does not get the "current time" default: the
raise inside the `try` block sends it to the generic handler, so the
outcome reports `"offline"` with no latency, not the body's own status.
A 299 reply never reaches the defaulting code at all: only `status ==
200` does. -/
theorem probe_defaults_counterexample :
    (check_service_health "database" "Database Storage Service"
        (HttpResult.success 200
          (BodyResult.ok ⟨some "healthy", some (TsText.invalid "garbage"), some [("k", "v")]⟩))
        4 9).status = "offline" ∧
    (check_service_health "database" "Database Storage Service"
        (HttpResult.success 200
          (BodyResult.ok ⟨some "healthy", some (TsText.invalid "garbage"), some [("k", "v")]⟩))
        4 9).response_time_ms = none ∧
    (check_service_health "weather" "Weather Data Service"
        (HttpResult.success 299 (BodyResult.ok ⟨none, none, none⟩)) 4 9).status = "error" :=
  ⟨rfl, rfl, rfl⟩

/-- **C8 (amended).** For every 200 reply with parseable body whose
timestamp field, when present, is ISO-parseable, each field defaults
independently: an absent status yields `"unknown"`, an absent timestamp
yields the current time, absent details yield the empty map — present
fields keep their values — and the outcome reports the body-derived
status with measured latency.  A present-but-unparseable timestamp field
instead routes the probe to the generic failure branch (status
`"offline"`, latency absent). -/
theorem probe_defaults_amended (service_name name : String) (rt now : ℚ)
    (body : HealthBody) :
    ((∀ raw, body.timestamp ≠ some (TsText.invalid raw)) →
      check_service_health service_name name
          (HttpResult.success 200 (BodyResult.ok body)) rt now =
        { service := service_name
          status := body.status.getD "unknown"
          timestamp :=
            match body.timestamp with
            | some (TsText.valid t) => t
            | _ => now
          details := body.details.getD []
          response_time_ms := some rt }) ∧
    (∀ raw, body.timestamp = some (TsText.invalid raw) →
      (check_service_health service_name name
          (HttpResult.success 200 (BodyResult.ok body)) rt now).status = "offline" ∧
      (check_service_health service_name name
          (HttpResult.success 200 (BodyResult.ok body)) rt now).response_time_ms = none) := by
  obtain ⟨bst, bts, bdet⟩ := body
  refine ⟨?_, ?_⟩
  · intro hts
    match bts with
    | none => rfl
    | some (TsText.valid t) => rfl
    | some (TsText.invalid raw) => exact absurd rfl (hts raw)
  · rintro raw rfl
    exact ⟨rfl, rfl⟩

/-- Witness for `probe_defaults_amended`: a 200 reply with a mixed body
— absent status, present timestamp, present details — so the status
defaults to `"unknown"` while the other fields keep their values. -/
theorem probe_defaults_amended_witness :
    check_service_health "hubitat" "Hubitat Hub Control"
        (HttpResult.success 200 (BodyResult.ok ⟨none, some (TsText.valid 4), some [("k", "v")]⟩))
        2 8 =
      { service := "hubitat", status := "unknown", timestamp := 4, details := [("k", "v")]
        response_time_ms := some 2 } := by
  have h := (probe_defaults_amended "hubitat" "Hubitat Hub Control" 2 8
      ⟨none, some (TsText.valid 4), some [("k", "v")]⟩).1 (by intro raw h2; simp at h2)
  exact h

/-- The `summary` dict computed by `get_system_health`
(`src/dashboard/main.py` lines 129-135). -/
structure Summary where
  total_services : Nat
  healthy_services : Nat
  offline_services : Nat
  avg_response_time_ms : Option ℚ
  uptime_percentage : ℚ
deriving DecidableEq

/-- `h.status in ["healthy", "degraded"]` of `src/dashboard/main.py` line 121. -/
def countsUpFull (h : ServiceHealth) : Bool :=
  h.status == "healthy" || h.status == "degraded"

/-- `h.status in ["offline", "timeout", "error"]` of line 122. -/
def countsDownFull (h : ServiceHealth) : Bool :=
  h.status == "offline" || h.status == "timeout" || h.status == "error"

/-- Summary statistics of `src/dashboard/main.py` lines 119-135. -/
def computeSummary (hs : List ServiceHealth) : Summary :=
  let healthy := (hs.filter countsUpFull).length
  let rts := hs.filterMap ServiceHealth.response_time_ms
  { total_services := hs.length
    healthy_services := healthy
    offline_services := (hs.filter countsDownFull).length
    avg_response_time_ms := if rts.isEmpty then none else some (rts.sum / (rts.length : ℚ))
    uptime_percentage := if 0 < hs.length then (healthy : ℚ) / (hs.length : ℚ) * 100 else 0 }

/-- `h.status in ["healthy", "responding", "degraded"]` of
`src/dashboard/main_simple.py` line 115. -/
def countsUpSimple (h : ServiceHealth) : Bool :=
  h.status == "healthy" || h.status == "responding" || h.status == "degraded"

/-- Summary statistics of `src/dashboard/main_simple.py` lines 113-129. -/
def computeSummarySimple (hs : List ServiceHealth) : Summary :=
  let healthy := (hs.filter countsUpSimple).length
  let rts := hs.filterMap ServiceHealth.response_time_ms
  { total_services := hs.length
    healthy_services := healthy
    offline_services := (hs.filter countsDownFull).length
    avg_response_time_ms := if rts.isEmpty then none else some (rts.sum / (rts.length : ℚ))
    uptime_percentage := if 0 < hs.length then (healthy : ℚ) / (hs.length : ℚ) * 100 else 0 }

lemma decide_mem_two {s a b : String} :
    decide (s ∈ ([a, b] : List String)) = (s == a || s == b) := by
  by_cases h1 : s = a <;> by_cases h2 : s = b <;> simp [h1, h2]

lemma decide_mem_three {s a b c : String} :
    decide (s ∈ ([a, b, c] : List String)) = (s == a || s == b || s == c) := by
  by_cases h1 : s = a <;> by_cases h2 : s = b <;> by_cases h3 : s = c <;> simp [h1, h2, h3]

/-- **C6 (counterexample).** The full dashboard does not count
`"responding"` as up: a single `"responding"` outcome gives healthy
count 0 there, although the claimed counts-as-up set
`{healthy, degraded, responding}` contains it (and the simple dashboard,
which does use that set, counts 1). -/
theorem summary_counts_counterexample :
    (computeSummary [⟨"govee", "responding", 0, [], some 5⟩]).healthy_services = 0 ∧
    (computeSummarySimple [⟨"govee", "responding", 0, [], some 5⟩]).healthy_services = 1 ∧
    ([(⟨"govee", "responding", 0, [], some 5⟩ : ServiceHealth)].filter
        (fun h => decide (h.status ∈ (["healthy", "degraded", "responding"] : List String)))).length
      = 1 :=
  ⟨rfl, rfl, rfl⟩

/-- **C6 (amended).** For every probe cycle: the full dashboard's
healthy count is the number of outcomes with status in
`{healthy, degraded}` (the simple dashboard's uses
`{healthy, responding, degraded}`); the offline count is the number of
outcomes with status in `{offline, timeout, error}`; the mean latency is
the average over the outcomes with a non-absent latency and is absent
when none has one; and the uptime percentage is healthy/total as a
percentage, 0 when the total is 0. -/
theorem summary_counts_amended (hs : List ServiceHealth) :
    (computeSummary hs).total_services = hs.length ∧
    (computeSummary hs).healthy_services =
      (hs.filter (fun h => decide (h.status ∈ (["healthy", "degraded"] : List String)))).length ∧
    (computeSummarySimple hs).healthy_services =
      (hs.filter
        (fun h => decide (h.status ∈ (["healthy", "responding", "degraded"] : List String)))).length ∧
    (computeSummary hs).offline_services =
      (hs.filter
        (fun h => decide (h.status ∈ (["offline", "timeout", "error"] : List String)))).length ∧
    (computeSummary hs).avg_response_time_ms =
      (if hs.filterMap ServiceHealth.response_time_ms = [] then none
       else some ((hs.filterMap ServiceHealth.response_time_ms).sum /
         ((hs.filterMap ServiceHealth.response_time_ms).length : ℚ))) ∧
    (computeSummary hs).uptime_percentage =
      (if hs.length = 0 then 0
       else ((computeSummary hs).healthy_services : ℚ) / (hs.length : ℚ) * 100) := by
  refine ⟨rfl, ?_, ?_, ?_, ?_, ?_⟩
  · have : ∀ h ∈ hs, countsUpFull h =
        (fun h : ServiceHealth =>
          decide (h.status ∈ (["healthy", "degraded"] : List String))) h := by
      intro h _
      show countsUpFull h = decide (h.status ∈ (["healthy", "degraded"] : List String))
      rw [countsUpFull, decide_mem_two]
    rw [show (computeSummary hs).healthy_services = (hs.filter countsUpFull).length from rfl,
      List.filter_congr this]
  · have : ∀ h ∈ hs, countsUpSimple h =
        (fun h : ServiceHealth =>
          decide (h.status ∈ (["healthy", "responding", "degraded"] : List String))) h := by
      intro h _
      show countsUpSimple h =
        decide (h.status ∈ (["healthy", "responding", "degraded"] : List String))
      rw [countsUpSimple, decide_mem_three]
    rw [show (computeSummarySimple hs).healthy_services =
        (hs.filter countsUpSimple).length from rfl,
      List.filter_congr this]
  · have : ∀ h ∈ hs, countsDownFull h =
        (fun h : ServiceHealth =>
          decide (h.status ∈ (["offline", "timeout", "error"] : List String))) h := by
      intro h _
      show countsDownFull h = decide (h.status ∈ (["offline", "timeout", "error"] : List String))
      rw [countsDownFull, decide_mem_three]
    rw [show (computeSummary hs).offline_services =
        (hs.filter countsDownFull).length from rfl,
      List.filter_congr this]
  · cases hrts : hs.filterMap ServiceHealth.response_time_ms with
    | nil => simp [computeSummary, hrts]
    | cons a t => simp [computeSummary, hrts]
  · by_cases h : hs.length = 0
    · simp [computeSummary, h]
    · have hpos : 0 < hs.length := Nat.pos_of_ne_zero h
      simp [computeSummary, h, hpos]

/-- The dict stored into `self.health_cache` by `get_system_health`
(`src/dashboard/main.py` lines 138-143). -/
structure CacheEntry where
  overall_status : String
  services : List ServiceHealth
  summary : Summary
  last_update : ℚ
deriving DecidableEq

/-- The mutable attributes of `HealthDashboard`: the single cache slot
(`{}`, falsy, modelled `none`, until first filled) and `last_update`. -/
structure DashState where
  health_cache : Option CacheEntry
  last_update : Option ℚ
deriving DecidableEq

/-- The `SystemHealth` pydantic model of `src/dashboard/main.py`
lines 32-36. -/
structure SystemHealth where
  overall_status : String
  timestamp : ℚ
  services : List ServiceHealth
  summary : Summary
deriving DecidableEq

/-- `HealthDashboard.get_system_health` (`src/dashboard/main.py` lines
96-151) after the probe fan-in, with the gathered outcomes and the
current instant as inputs: reduce, summarize, overwrite both cache
attributes wholesale, return the fresh aggregate. -/
def refreshDash (healths : List ServiceHealth) (now : ℚ) : DashState × SystemHealth :=
  let overall := reduceOverall (healths.map ServiceHealth.status)
  let summary := computeSummary healths
  (⟨some ⟨overall, healths, summary, now⟩, some now⟩, ⟨overall, now, healths, summary⟩)

/-- `HealthDashboard.get_cached_health` (`src/dashboard/main.py` lines
153-159): the cached dict, when both attributes are set and the entry is
less than 30 seconds old. -/
def get_cached_health (s : DashState) (now : ℚ) : Option CacheEntry :=
  match s.last_update, s.health_cache with
  | some t, some c => if now - t < 30 then some c else none
  | _, _ => none

/-- The `/system` endpoint (`src/dashboard/main.py` lines 232-251):
cache hit returns the cached data rebuilt into a `SystemHealth` with the
cached `last_update` as timestamp; otherwise a fresh probe cycle runs.
The `Bool` records whether a probe cycle ran. -/
def get_system_endpoint (s : DashState) (use_cache : Bool)
    (healths : List ServiceHealth) (now : ℚ) : DashState × SystemHealth × Bool :=
  if use_cache then
    match get_cached_health s now with
    | some c => (s, ⟨c.overall_status, c.last_update, c.services, c.summary⟩, false)
    | none => ((refreshDash healths now).1, (refreshDash healths now).2, true)
  else ((refreshDash healths now).1, (refreshDash healths now).2, true)

/-- **C4.** With `use_cache = true`, a cache entry younger than 30
seconds is returned verbatim with no probe cycle, and otherwise a full
refresh runs; hence after a refresh at `t0`, a call before `t0 + 30`
probes nothing and leaves the state untouched, a second such call still
probes nothing (one probe cycle in total, the refresh itself), and a
call at `t0 + 31` or later runs a second cycle. -/
theorem cache_window (s : DashState) (hs hs1 hs2 : List ServiceHealth) (t0 n1 n2 : ℚ)
    (h1 : n1 - t0 < 30) (h2 : 30 ≤ n2 - t0) :
    (∀ c, get_cached_health s n1 = some c →
      get_system_endpoint s true hs1 n1 =
        (s, ⟨c.overall_status, c.last_update, c.services, c.summary⟩, false)) ∧
    (get_cached_health s n1 = none → (get_system_endpoint s true hs1 n1).2.2 = true) ∧
    (get_system_endpoint (refreshDash hs t0).1 true hs1 n1).2.2 = false ∧
    (get_system_endpoint (refreshDash hs t0).1 true hs1 n1).1 = (refreshDash hs t0).1 ∧
    (get_system_endpoint
        (get_system_endpoint (refreshDash hs t0).1 true hs1 n1).1 true hs1 n1).2.2 = false ∧
    (get_system_endpoint (refreshDash hs t0).1 true hs2 n2).2.2 = true := by
  have hhit : get_cached_health (refreshDash hs t0).1 n1 =
      some ⟨reduceOverall (hs.map ServiceHealth.status), hs, computeSummary hs, t0⟩ := by
    show (if n1 - t0 < 30 then _ else none) = _
    rw [if_pos h1]
  have hmiss : get_cached_health (refreshDash hs t0).1 n2 = none := by
    show (if n2 - t0 < 30 then _ else none) = none
    rw [if_neg (not_lt.mpr h2)]
  refine ⟨?_, ?_, ?_, ?_, ?_, ?_⟩
  · intro c hc
    simp [get_system_endpoint, hc]
  · intro hc
    simp [get_system_endpoint, hc]
  · simp [get_system_endpoint, hhit]
  · simp [get_system_endpoint, hhit]
  · simp [get_system_endpoint, hhit]
  · simp [get_system_endpoint, hmiss]

/-- Witness for `cache_window`: refresh at 0, cached call at 10, fresh
call at 31. -/
theorem cache_window_witness :
    (get_system_endpoint (refreshDash [] 0).1 true [] 10).2.2 = false ∧
    (get_system_endpoint (refreshDash [] 0).1 true [] 31).2.2 = true := by
  have h := cache_window ⟨none, none⟩ [] [] [] 0 10 31 (by norm_num) (by norm_num)
  exact ⟨h.2.2.1, h.2.2.2.2.2⟩

/-- One iteration of the `health_monitor` background task
(`src/dashboard/main.py` lines 669-692): run a full refresh, then
publish the aggregate to Redis on topic `"system-health"`.  `publishOk`
records whether the publish call raises; a raise is caught by the
loop's handler, so the iteration still completes with the cache updated
and simply delivers nothing. -/
def health_monitor_iter (healths : List ServiceHealth) (now : ℚ) (publishOk : Bool) :
    DashState × List (String × SystemHealth) :=
  let r := refreshDash healths now
  (r.1, if publishOk then [("system-health", r.2)] else [])

/-- The `while True` monitor loop over a list of iterations (probe
outcomes, instant, publish success), accumulating the published
messages. -/
def health_monitor_run (s : DashState) (iters : List (List ServiceHealth × ℚ × Bool)) :
    DashState × List (String × SystemHealth) :=
  iters.foldl
    (fun acc it =>
      let r := health_monitor_iter it.1 it.2.1 it.2.2
      (r.1, acc.2 ++ r.2))
    (s, [])

/-- **C5 (counterexample).** The whole-system aggregate is published on
topic `"system-health"`, not `"health-updates"`: the monitor iteration's
only published topic is `"system-health"`. -/
theorem publish_after_refresh_counterexample :
    (health_monitor_iter [] 0 true).2.map Prod.fst = ["system-health"] ∧
    "health-updates" ∉ (health_monitor_iter [] 0 true).2.map Prod.fst ∧
    ("system-health" : String) ≠ "health-updates" := by
  refine ⟨rfl, ?_, ?_⟩ <;> decide

/-- **C5 (amended).** The background monitor loop — not `refresh()` or
`get()` themselves — serializes and publishes the fresh aggregate once
per iteration, on topic `"system-health"`; the publish is
fire-and-forget: when it raises, the iteration still leaves the
refreshed cache in place, delivers nothing, and the loop carries on with
the next iteration. -/
theorem publish_after_refresh_amended (healths : List ServiceHealth) (now : ℚ)
    (publishOk : Bool) (s : DashState) (iters : List (List ServiceHealth × ℚ × Bool)) :
    (health_monitor_iter healths now publishOk).1 = (refreshDash healths now).1 ∧
    (health_monitor_iter healths now publishOk).2 =
      (if publishOk then [("system-health", (refreshDash healths now).2)] else []) ∧
    (∀ t msg, (t, msg) ∈ (health_monitor_iter healths now publishOk).2 →
      t = "system-health") ∧
    health_monitor_run s ((healths, now, false) :: iters) =
      health_monitor_run (refreshDash healths now).1 iters := by
  refine ⟨rfl, rfl, ?_, rfl⟩
  intro t msg hmem
  cases publishOk with
  | false => simp [health_monitor_iter] at hmem
  | true =>
      simp [health_monitor_iter] at hmem
      exact hmem.1

/-- Witness for `publish_after_refresh_amended` at a concrete iteration. -/
theorem publish_after_refresh_amended_witness :
    (health_monitor_iter [] 5 true).2 = [("system-health", (refreshDash [] 5).2)] ∧
    health_monitor_run ⟨none, none⟩ [([], 5, false)] = ((refreshDash [] 5).1, []) := by
  have h := publish_after_refresh_amended [] 5 true ⟨none, none⟩ []
  refine ⟨by simpa using h.2.1, ?_⟩
  rw [h.2.2.2]
  rfl

/-- The `SensorReading` pydantic model of `src/database/main.py`
lines 25-30 (after successful validation). -/
structure SensorReading where
  sensor_id : String
  temperature : Option ℚ
  humidity : Option ℚ
  battery_level : Option Int
  timestamp : ℚ
deriving DecidableEq

/-- The `validate_temperature` validator (`src/database/main.py`
lines 32-36): a present value outside [-100, 150] raises. -/
def validate_temperature (v : Option ℚ) : Except String (Option ℚ) :=
  match v with
  | none => Except.ok none
  | some x =>
      if -100 ≤ x ∧ x ≤ 150 then Except.ok (some x)
      else Except.error "Temperature must be between -100 and 150 degrees"

/-- The `validate_humidity` validator (`src/database/main.py`
lines 38-42): a present value outside [0, 100] raises. -/
def validate_humidity (v : Option ℚ) : Except String (Option ℚ) :=
  match v with
  | none => Except.ok none
  | some x =>
      if 0 ≤ x ∧ x ≤ 100 then Except.ok (some x)
      else Except.error "Humidity must be between 0 and 100 percent"

/-- Constructing a `SensorReading`: validation happens at construction
time, before any storage is attempted. -/
def mkSensorReading (sensor_id : String) (temperature humidity : Option ℚ)
    (battery_level : Option Int) (timestamp : ℚ) : Except String SensorReading := do
  let t ← validate_temperature temperature
  let h ← validate_humidity humidity
  Except.ok ⟨sensor_id, t, h, battery_level, timestamp⟩

/-- `DatabaseService.store_reading` (`src/database/main.py` lines
115-156): `INSERT OR REPLACE` keyed on `(timestamp, sensor_id)`, with a
storage failure (`dbOk = false`, the `sqlite3.Error` path) returning an
error result and leaving the store untouched. -/
def store_reading (db : List SensorReading) (r : SensorReading) (dbOk : Bool) :
    List SensorReading × Bool :=
  if dbOk then
    (db.filter (fun x => !(x.timestamp == r.timestamp && x.sensor_id == r.sensor_id)) ++ [r],
     true)
  else (db, false)

/-- The nested `data` payload of a bus message, every field optional. -/
structure MsgData where
  status : Option String
  device_id : Option String
  location : Option String
  temperature : Option ℚ
  humidity : Option ℚ
  battery_level : Option Int
  timestamp : Option TsText
deriving DecidableEq

/-- An inbound Redis message: parsed JSON on some channel, or one that
`json.loads` rejects. -/
inductive BusMessage where
  | parsed (channel : String) (data : MsgData)
  | malformed (channel : String) (raw : String)
deriving DecidableEq

/-- The raising portion of one ingest: parse the payload timestamp
(default: current time) and construct the validated reading. -/
def ingest_core (sid : String) (d : MsgData) (batt : Option Int) (now : ℚ) :
    Except String SensorReading := do
  let t ← fromisoformat (d.timestamp.getD (TsText.valid now))
  mkSensorReading sid d.temperature d.humidity batt t

/-- One message of the `redis_subscriber` loop (`src/database/main.py`
lines 465-508): branch on channel, ingest only payloads whose own status
is `"success"`, and turn every parse/validation/storage failure into a
log line, leaving the store as it was. -/
def process_message (db : List SensorReading) (msg : BusMessage) (dbOk : Bool)
    (now : ℚ) : List SensorReading :=
  match msg with
  | BusMessage.malformed _ _ => db
  | BusMessage.parsed channel d =>
      if channel == "sensor-data" then
        if d.status == some "success" then
          match ingest_core (d.device_id.getD "unknown") d d.battery_level now with
          | Except.ok r => (store_reading db r dbOk).1
          | Except.error _ => db
        else db
      else if channel == "weather-data" then
        if d.status == some "success" then
          match ingest_core ("weather_" ++ d.location.getD "unknown") d none now with
          | Except.ok r => (store_reading db r dbOk).1
          | Except.error _ => db
        else db
      else db

/-- The subscriber loop over a message sequence; each element carries
the message, whether the store is reachable, and the current instant. -/
def redis_subscriber_run (db : List SensorReading)
    (msgs : List (BusMessage × Bool × ℚ)) : List SensorReading :=
  msgs.foldl (fun acc m => process_message acc m.1 m.2.1 m.2.2) db

/-- A construction-time validation rejection: whenever the temperature
lies outside [-100, 150] or the humidity outside [0, 100], building the
`SensorReading` raises (the temperature validator fires first). -/
lemma mkSensorReading_error (sid : String) (temp hum : Option ℚ) (batt : Option Int)
    (ts : ℚ)
    (h : (∃ v, temp = some v ∧ ¬(-100 ≤ v ∧ v ≤ 150)) ∨
         (∃ v, hum = some v ∧ ¬(0 ≤ v ∧ v ≤ 100))) :
    ∃ e, mkSensorReading sid temp hum batt ts = Except.error e := by
  rcases h with ⟨v, hv, hr⟩ | ⟨v, hv, hr⟩
  · subst hv
    refine ⟨"Temperature must be between -100 and 150 degrees", ?_⟩
    simp only [mkSensorReading, validate_temperature]
    rw [if_neg hr]
    rfl
  · subst hv
    cases htv : validate_temperature temp with
    | error e =>
        refine ⟨e, ?_⟩
        simp only [mkSensorReading]
        rw [htv]
        rfl
    | ok t2 =>
        refine ⟨"Humidity must be between 0 and 100 percent", ?_⟩
        simp only [mkSensorReading]
        rw [htv]
        show (do
            let h2 ← validate_humidity (some v)
            Except.ok (⟨sid, t2, h2, batt, ts⟩ : SensorReading)) =
          Except.error "Humidity must be between 0 and 100 percent"
        simp only [validate_humidity]
        rw [if_neg hr]
        rfl

/-- An ingest whose payload fails validation raises before any storage
call, whatever the timestamp field holds. -/
lemma ingest_core_rejects (sid : String) (d : MsgData) (batt : Option Int) (now : ℚ)
    (h : (∃ v, d.temperature = some v ∧ ¬(-100 ≤ v ∧ v ≤ 150)) ∨
         (∃ v, d.humidity = some v ∧ ¬(0 ≤ v ∧ v ≤ 100))) :
    ∃ e, ingest_core sid d batt now = Except.error e := by
  simp only [ingest_core]
  cases hts : d.timestamp.getD (TsText.valid now) with
  | invalid raw =>
      exact ⟨"Invalid isoformat string: " ++ raw, rfl⟩
  | valid t =>
      obtain ⟨e, he⟩ := mkSensorReading_error sid d.temperature d.humidity batt t h
      refine ⟨e, ?_⟩
      show mkSensorReading sid d.temperature d.humidity batt t = Except.error e
      exact he

/-- On any channel, a message whose payload fails validation leaves the
store untouched: both ingest branches construct the reading from the
payload's temperature and humidity, and the rejection is caught by the
per-message handler. -/
lemma process_message_rejects (db : List SensorReading) (ch : String) (d : MsgData)
    (dbOk : Bool) (now : ℚ)
    (h : (∃ v, d.temperature = some v ∧ ¬(-100 ≤ v ∧ v ≤ 150)) ∨
         (∃ v, d.humidity = some v ∧ ¬(0 ≤ v ∧ v ≤ 100))) :
    process_message db (BusMessage.parsed ch d) dbOk now = db := by
  simp only [process_message]
  by_cases h1 : (ch == "sensor-data") = true
  · rw [if_pos h1]
    by_cases h2 : (d.status == some "success") = true
    · rw [if_pos h2]
      obtain ⟨e, he⟩ := ingest_core_rejects (d.device_id.getD "unknown") d d.battery_level now h
      rw [he]
    · rw [if_neg h2]
  · rw [if_neg h1]
    by_cases h3 : (ch == "weather-data") = true
    · rw [if_pos h3]
      by_cases h2 : (d.status == some "success") = true
      · rw [if_pos h2]
        obtain ⟨e, he⟩ :=
          ingest_core_rejects ("weather_" ++ d.location.getD "unknown") d none now h
        rw [he]
      · rw [if_neg h2]
    · rw [if_neg h3]

/-- **C3.** Failure isolation of the auto-ingest subscriber: a malformed
message, a validation rejection (temperature outside [-100, 150] or
humidity outside [0, 100], rejected when the `SensorReading` is
constructed, on the sensor-data topic and the weather-data topic alike),
or a storage error is absorbed — the store is unchanged and the loop
continues with the next message; in particular a sensor-data message
with temperature 500 °F is rejected, never appears in storage, and the
following message is still ingested. -/
theorem ingest_isolation :
    (∀ (db : List SensorReading) (ch raw : String) (dbOk : Bool) (now : ℚ)
        (rest : List (BusMessage × Bool × ℚ)),
      redis_subscriber_run db ((BusMessage.malformed ch raw, dbOk, now) :: rest) =
        redis_subscriber_run db rest) ∧
    (∀ (sid : String) (temp hum : Option ℚ) (batt : Option Int) (ts v : ℚ),
      temp = some v → ¬(-100 ≤ v ∧ v ≤ 150) →
      mkSensorReading sid temp hum batt ts =
        Except.error "Temperature must be between -100 and 150 degrees") ∧
    (∀ (sid : String) (temp hum : Option ℚ) (batt : Option Int) (ts v : ℚ),
      hum = some v → ¬(0 ≤ v ∧ v ≤ 100) →
      ∃ e, mkSensorReading sid temp hum batt ts = Except.error e) ∧
    (∀ (db : List SensorReading) (ch : String) (d : MsgData) (dbOk : Bool) (now : ℚ)
        (rest : List (BusMessage × Bool × ℚ)),
      ((∃ v, d.temperature = some v ∧ ¬(-100 ≤ v ∧ v ≤ 150)) ∨
       (∃ v, d.humidity = some v ∧ ¬(0 ≤ v ∧ v ≤ 100))) →
      redis_subscriber_run db ((BusMessage.parsed ch d, dbOk, now) :: rest) =
        redis_subscriber_run db rest) ∧
    (∀ (db : List SensorReading) (msg : BusMessage) (now : ℚ)
        (rest : List (BusMessage × Bool × ℚ)),
      redis_subscriber_run db ((msg, false, now) :: rest) =
        redis_subscriber_run db rest) ∧
    (redis_subscriber_run []
        [(BusMessage.parsed "sensor-data"
            ⟨some "success", some "govee_1", none, some 500, some 50, some 90,
              some (TsText.valid 10)⟩, true, 0),
         (BusMessage.parsed "sensor-data"
            ⟨some "success", some "govee_2", none, some 72, some 50, some 90,
              some (TsText.valid 11)⟩, true, 0)] =
      [⟨"govee_2", some 72, some 50, some 90, 11⟩] ∧
      (⟨"govee_1", some 500, some 50, some 90, 10⟩ : SensorReading) ∉
        redis_subscriber_run []
          [(BusMessage.parsed "sensor-data"
              ⟨some "success", some "govee_1", none, some 500, some 50, some 90,
                some (TsText.valid 10)⟩, true, 0),
           (BusMessage.parsed "sensor-data"
              ⟨some "success", some "govee_2", none, some 72, some 50, some 90,
                some (TsText.valid 11)⟩, true, 0)]) := by
  refine ⟨?_, ?_, ?_, ?_, ?_, ?_⟩
  · intro db ch raw dbOk now rest
    rfl
  · intro sid temp hum batt ts v hv hrange
    subst hv
    simp only [mkSensorReading, validate_temperature]
    rw [if_neg hrange]
    rfl
  · intro sid temp hum batt ts v hv hrange
    exact mkSensorReading_error sid temp hum batt ts (Or.inr ⟨v, hv, hrange⟩)
  · intro db ch d dbOk now rest h
    show redis_subscriber_run (process_message db (BusMessage.parsed ch d) dbOk now) rest =
      redis_subscriber_run db rest
    rw [process_message_rejects db ch d dbOk now h]
  · intro db msg now rest
    have hproc : process_message db msg false now = db := by
      cases msg with
      | malformed ch raw => rfl
      | parsed ch d =>
          simp only [process_message]
          repeat' split
          all_goals rfl
    show redis_subscriber_run (process_message db msg false now) rest =
      redis_subscriber_run db rest
    rw [hproc]
  · refine ⟨rfl, ?_⟩
    decide

/-- Witness for `ingest_isolation`: temperature 500 °F is rejected at
construction and its sensor-data message leaves the store untouched; a
weather-data message with humidity 150 % is likewise absorbed. -/
theorem ingest_isolation_witness :
    mkSensorReading "govee_1" (some 500) (some 50) (some 90) 10 =
      Except.error "Temperature must be between -100 and 150 degrees" ∧
    (∃ e, mkSensorReading "weather_nyc" (some 70) (some 150) none 12 = Except.error e) ∧
    redis_subscriber_run []
        [(BusMessage.parsed "sensor-data"
            ⟨some "success", some "govee_1", none, some 500, some 50, some 90,
              some (TsText.valid 10)⟩, true, 0)] =
      redis_subscriber_run [] [] ∧
    redis_subscriber_run []
        [(BusMessage.parsed "weather-data"
            ⟨some "success", none, some "nyc", some 70, some 150, none,
              some (TsText.valid 12)⟩, true, 0)] =
      redis_subscriber_run [] [] := by
  refine ⟨ingest_isolation.2.1 "govee_1" (some 500) (some 50) (some 90) 10 500 rfl
      (by norm_num),
    ingest_isolation.2.2.1 "weather_nyc" (some 70) (some 150) none 12 150 rfl
      (by norm_num), ?_, ?_⟩
  · exact ingest_isolation.2.2.2.1 [] "sensor-data"
      ⟨some "success", some "govee_1", none, some 500, some 50, some 90,
        some (TsText.valid 10)⟩ true 0 []
      (Or.inl ⟨500, rfl, by norm_num⟩)
  · exact ingest_isolation.2.2.2.1 [] "weather-data"
      ⟨some "success", none, some "nyc", some 70, some 150, none,
        some (TsText.valid 12)⟩ true 0 []
      (Or.inr ⟨150, rfl, by norm_num⟩)

/-- An observable scheduler step of one `get_system_health` call under
the cooperative event loop: either a suspension point (an awaited probe,
which touches no shared state of the dashboard) or the commit region of
`src/dashboard/main.py` lines 138-144, which contains no `await` and
therefore executes without interleaving — it replaces the whole cache
slot and the `last_update` stamp in one step. -/
inductive RStep where
  | suspend
  | commit (entry : CacheEntry)
deriving DecidableEq

/-- Effect of one step on the dashboard's shared mutable state. -/
def applyStep (s : DashState) : RStep → DashState
  | RStep.suspend => s
  | RStep.commit e => ⟨some e, some e.last_update⟩

/-- Executing a step sequence against the shared state. -/
def runSteps (s : DashState) (l : List RStep) : DashState := l.foldl applyStep s

/-- The step sequence of one refresh cycle: its probe suspensions
(fan-out/fan-in), then the single commit of its complete entry. -/
def cycleSteps (probes : Nat) (e : CacheEntry) : List RStep :=
  List.replicate probes RStep.suspend ++ [RStep.commit e]

/-- `Interleave xs ys zs`: `zs` is an order-preserving interleaving of
`xs` and `ys` — every schedule the event loop can produce for two
concurrent cycles. -/
inductive Interleave {α : Type} : List α → List α → List α → Prop where
  | nil : Interleave [] [] []
  | left {x : α} {xs ys zs : List α} :
      Interleave xs ys zs → Interleave (x :: xs) ys (x :: zs)
  | right {y : α} {xs ys zs : List α} :
      Interleave xs ys zs → Interleave xs (y :: ys) (y :: zs)

lemma interleave_mem {α : Type} {xs ys zs : List α} (h : Interleave xs ys zs) :
    ∀ z ∈ zs, z ∈ xs ∨ z ∈ ys := by
  induction h with
  | nil => intro z hz; cases hz
  | left _ ih =>
      intro z hz
      rcases List.mem_cons.mp hz with rfl | hz2
      · exact Or.inl (List.mem_cons_self _ _)
      · rcases ih z hz2 with h1 | h2
        · exact Or.inl (List.mem_cons_of_mem _ h1)
        · exact Or.inr h2
  | right _ ih =>
      intro z hz
      rcases List.mem_cons.mp hz with rfl | hz2
      · exact Or.inr (List.mem_cons_self _ _)
      · rcases ih z hz2 with h1 | h2
        · exact Or.inl h1
        · exact Or.inr (List.mem_cons_of_mem _ h2)

lemma commit_mem_cycle {p : Nat} {e e2 : CacheEntry}
    (h : RStep.commit e2 ∈ cycleSteps p e) : e2 = e := by
  simp [cycleSteps, List.mem_replicate] at h
  exact h

/-- Any prefix of a step sequence whose commits all carry one of the two
complete entries leaves the cache holding its initial value or one of
those entries — never anything else. -/
lemma runSteps_cache_cases :
    ∀ (zs : List RStep) (s : DashState) (ea eb : CacheEntry),
      (∀ e, RStep.commit e ∈ zs → e = ea ∨ e = eb) →
      ∀ l, l <+: zs →
        (runSteps s l).health_cache = s.health_cache ∨
        (runSteps s l).health_cache = some ea ∨
        (runSteps s l).health_cache = some eb := by
  intro zs
  induction zs with
  | nil =>
      intro s ea eb _ l hl
      rw [List.prefix_nil.mp hl]
      exact Or.inl rfl
  | cons z zs ih =>
      intro s ea eb hz l hl
      cases l with
      | nil => exact Or.inl rfl
      | cons w l2 =>
          obtain ⟨rfl, hl2⟩ := List.cons_prefix_cons.mp hl
          have hz2 : ∀ e, RStep.commit e ∈ zs → e = ea ∨ e = eb :=
            fun e he => hz e (List.mem_cons_of_mem _ he)
          have hrun : runSteps s (w :: l2) = runSteps (applyStep s w) l2 := rfl
          cases w with
          | suspend =>
              rw [hrun]
              exact ih (applyStep s RStep.suspend) ea eb hz2 l2 hl2
          | commit e =>
              rw [hrun]
              have he : e = ea ∨ e = eb := hz e (List.mem_cons_self _ _)
              rcases ih (applyStep s (RStep.commit e)) ea eb hz2 l2 hl2 with h1 | h1 | h1
              · rw [h1]
                rcases he with rfl | rfl
                · exact Or.inr (Or.inl rfl)
                · exact Or.inr (Or.inr rfl)
              · exact Or.inr (Or.inl h1)
              · exact Or.inr (Or.inr h1)

/-- **C7.** Two concurrent refresh cycles never expose a mixed cache
entry: under every event-loop interleaving of the two cycles' steps
(each cycle commits its complete entry in its single awaitless commit
region), every reachable state of the cache slot is the initial value or
one cycle's complete entry — a reader never observes a half-updated
entry or a mixture of the two cycles' data. -/
theorem cache_atomic_replacement (pa pb : Nat) (ea eb : CacheEntry) (zs : List RStep)
    (s : DashState) (hint : Interleave (cycleSteps pa ea) (cycleSteps pb eb) zs)
    (l : List RStep) (hl : l <+: zs) :
    (runSteps s l).health_cache = s.health_cache ∨
    (runSteps s l).health_cache = some ea ∨
    (runSteps s l).health_cache = some eb := by
  apply runSteps_cache_cases zs s ea eb _ l hl
  intro e he
  rcases interleave_mem hint _ he with h | h
  · exact Or.inl (commit_mem_cycle h)
  · exact Or.inr (commit_mem_cycle h)

/-- The entry committed by the first concrete demo cycle. -/
def entryA : CacheEntry := ⟨"healthy", [], computeSummary [], 1⟩

/-- The entry committed by the second concrete demo cycle. -/
def entryB : CacheEntry := ⟨"offline", [], computeSummary [], 2⟩

/-- A concrete schedule of two one-probe cycles, the second committing
before the first. -/
def interleavedDemo : List RStep :=
  [RStep.suspend, RStep.suspend, RStep.commit entryB, RStep.commit entryA]

/-- Witness for `cache_atomic_replacement` on the concrete schedule. -/
theorem cache_atomic_replacement_witness :
    (runSteps ⟨none, none⟩ interleavedDemo).health_cache =
        (⟨none, none⟩ : DashState).health_cache ∨
    (runSteps ⟨none, none⟩ interleavedDemo).health_cache = some entryA ∨
    (runSteps ⟨none, none⟩ interleavedDemo).health_cache = some entryB := by
  have hI : Interleave (cycleSteps 1 entryA) (cycleSteps 1 entryB) interleavedDemo :=
    Interleave.left (Interleave.right (Interleave.right (Interleave.left Interleave.nil)))
  exact cache_atomic_replacement 1 1 entryA entryB interleavedDemo ⟨none, none⟩ hI
    interleavedDemo (List.prefix_refl interleavedDemo)
